import Mathlib

/-!
# Verification of the EUI CSS prefixing pipeline and badge components

This development embeds, in Lean 4, the parts of the `eui` component library
that its specification makes checkable claims about:

* the `euiStylisPrefixer` stylis plugin and the stylesheet-serialization
  pipeline it is registered into (`src/services/emotion/prefixer.ts`, whose
  behavior is documented by its test suite and by the specification; the
  implementation file itself is not among the provided sources, so the plugin
  and its host engine are modelled from the specification),
* the internal Emotion instance configuration (`src/services/emotion/css.ts`),
* the `EuiBadge` href-validation/disabling logic (`components/badge/badge.tsx`),
* the `EuiBetaBadge` circular-sizing selection (`beta_badge.tsx`).

All definitions are executable; predicates are `Bool`-valued so that concrete
instances evaluate by `decide` or `rfl`.
-/

/-! ## CSS AST data model

The specification's data model (spec §3): a stylesheet is an ordered sequence
of nodes; a node is a `Declaration` (property, value) or a `Rule`
(selector, owned ordered children).  We add a `raw` variant for the
unknown/malformed node shapes the error-handling design talks about
(spec §7 taxonomy (a)): nodes that are neither declarations nor rules.
`NodeList` is a mutually defined list so that structural recursion and
induction over the nested children work smoothly. -/

mutual

/-- A node in the parsed CSS AST (spec §3 `StyleSheetNode`): a declaration,
a rule with children, or an unknown/malformed node shape. -/
inductive StyleSheetNode where
  | decl (property value : String)
  | rule (selector : String) (children : NodeList)
  | raw (elementType content : String)

/-- An ordered sequence of `StyleSheetNode`s (the owned `children` of a rule,
or a whole flattened stylesheet). -/
inductive NodeList where
  | nil
  | cons (head : StyleSheetNode) (tail : NodeList)

end

/-- Concatenation of node sequences. -/
def NodeList.append : NodeList → NodeList → NodeList
  | .nil, ys => ys
  | .cons x xs, ys => .cons x (xs.append ys)

/-- The action the Prefix Decision Engine can take on a node
(spec §3 `PrefixRule`): suppress default prefixing, rewrite the value,
or leave the host engine's default behavior in place. -/
inductive PrefixAction where
  | Suppress
  | Rewrite (newValue : String)
  | LeaveDefault

/-- `strStartsWith pre s` is true when `pre` is a leading substring of `s`
(exact-string / fixed-pattern matching only, spec §4.2). -/
def strStartsWith (pre s : String) : Bool :=
  pre.data.isPrefixOf s.data

/-! ## The static rule table

Modelled from the spec: the file `src/services/emotion/prefixer.ts` is not
among the provided sources (only its test suite and its caller
`src/services/emotion/css.ts` are), so the suppress table is taken from the
specification (§4.2) and from the declarations exercised by the test suite:
the animation property family, the `@keyframes` at-rule, and the
`::placeholder` / `:read-only` / `:read-write` selectors. -/

/-- The animation property family whose legacy vendor variants are
suppressed. -/
def animationProperties : List String :=
  ["animation", "animation-name", "animation-delay", "animation-direction",
   "animation-duration", "animation-fill-mode", "animation-iteration-count",
   "animation-play-state", "animation-timing-function"]

/-- The pseudo-class/pseudo-element selectors long supported unprefixed,
whose `-moz-` vendor variants are suppressed. -/
def suppressedSelectors : List String :=
  ["::placeholder", ":read-only", ":read-write"]

/-- Is this selector an (unprefixed) `@keyframes` at-rule selector? -/
def isKeyframesSelector (sel : String) : Bool :=
  strStartsWith "@keyframes" sel

/-- The `-moz-` selector variants the host's default engine would emit for a
given selector (`::placeholder` → `::-moz-placeholder`, `:read-only` →
`:-moz-read-only`, `:read-write` → `:-moz-read-write`; nothing otherwise). -/
def mozSelectorVariants : String → List String
  | "::placeholder" => ["::-moz-placeholder"]
  | ":read-only" => [":-moz-read-only"]
  | ":read-write" => [":-moz-read-write"]
  | _ => []

/-- The `@-webkit-keyframes …` variant of an `@keyframes …` selector:
the leading `@` is replaced by `@-webkit-`. -/
def webkitKeyframesVariant (sel : String) : String :=
  "@-webkit-" ++ String.mk (sel.data.drop 1)

/-- All prefixed selector variants the host's default auto-prefixer emits for
a rule selector.  Modelled from the spec: the default engine emits the legacy
`-moz-` selector variants and the `@-webkit-keyframes` copy (spec §8 negative
control; prefixer test file, `default Emotion cache` block). -/
def defaultSelectorVariants (sel : String) : List String :=
  mozSelectorVariants sel ++
    (if isKeyframesSelector sel then [webkitKeyframesVariant sel] else [])

/-- The prefixed duplicate declarations the host's default auto-prefixer
emits before a declaration.  Modelled from the spec: for the animation
property family the default engine emits a `-webkit-`-prefixed duplicate
(prefixer test file, `default Emotion cache` snapshot). -/
def defaultDeclVariants (p v : String) : NodeList :=
  if animationProperties.contains p then
    .cons (.decl ("-webkit-" ++ p) v) .nil
  else
    .nil

/-! ## The Prefix Decision Engine and the plugin -/

/-- Modelled from the spec: the Prefix Decision Engine `classify(node) →
PrefixAction` of §4.2 (its implementation `prefixer.ts` is not among the provided
sources).  Animation-family declarations, the three long-supported pseudo
selectors and unprefixed `@keyframes` at-rules are `Suppress`; every other
node — including unknown/malformed `raw` nodes — is `LeaveDefault`. -/
def classify : StyleSheetNode → PrefixAction
  | .decl p _ =>
    if animationProperties.contains p then .Suppress else .LeaveDefault
  | .rule sel _ =>
    if suppressedSelectors.contains sel || isKeyframesSelector sel then
      .Suppress
    else
      .LeaveDefault
  | .raw _ _ => .LeaveDefault

/-- The type of a stylis plugin as the host invokes it (spec §6 plugin
contract): it receives the current node together with its traversal context
(index among its siblings and the sibling list) and returns the decision for
that node. -/
def StylisPlugin : Type :=
  StyleSheetNode → Nat → NodeList → PrefixAction

/-- Modelled from the spec: the `euiStylisPrefixer` plugin
(`src/services/emotion/prefixer.ts`, not among the provided sources).  Per
spec §4.2 the decision is a pure function of the node content against the
static rule table, so the traversal context is not consulted. -/
def euiStylisPrefixer : StylisPlugin :=
  fun n _ _ => classify n

/-- Run a list of registered plugins on one node: the first decision other
than `LeaveDefault` wins; with no plugins registered (or all falling
through), the result is `LeaveDefault` and the host's default auto-prefixing
heuristics apply (spec §4.3). -/
def runPlugins (plugins : List StylisPlugin) (n : StyleSheetNode) (i : Nat)
    (sibs : NodeList) : PrefixAction :=
  match plugins with
  | [] => .LeaveDefault
  | p :: ps =>
    match p n i sibs with
    | .LeaveDefault => runPlugins ps n i sibs
    | a => a

/-- Splice a list of selector variants, each sharing the compiled children
`cs`, in front of `rest` (the Output Mutator's sibling insertion,
spec §4.3). -/
def spliceRules (sels : List String) (cs rest : NodeList) : NodeList :=
  match sels with
  | [] => rest
  | s :: ss => .cons (.rule s cs) (spliceRules ss cs rest)

mutual

/-- Modelled from the spec: the host serializer's Rule Walker + Output
Mutator for a single node (spec §§4.1, 4.3).  The registered plugins decide
the action; `Suppress` emits the node alone (no prefixed siblings),
`LeaveDefault` lets the host's default auto-prefixer splice its prefixed
variants before the node, and `Rewrite` (reserved, produced by no current
rule) replaces the declaration value / rule selector.  Children are
compiled by the host's own traversal in all cases. -/
def compileNode (plugins : List StylisPlugin) :
    StyleSheetNode → Nat → NodeList → NodeList
  | n, i, sibs =>
    match runPlugins plugins n i sibs with
    | .Suppress =>
      match n with
      | .decl p v => .cons (.decl p v) .nil
      | .rule sel cs => .cons (.rule sel (compileListFrom plugins cs 0 cs)) .nil
      | .raw t c => .cons (.raw t c) .nil
    | .Rewrite w =>
      match n with
      | .decl p _ => .cons (.decl p w) .nil
      | .rule _ cs => .cons (.rule w (compileListFrom plugins cs 0 cs)) .nil
      | .raw t c => .cons (.raw t c) .nil
    | .LeaveDefault =>
      match n with
      | .decl p v => (defaultDeclVariants p v).append (.cons (.decl p v) .nil)
      | .rule sel cs =>
        let cs2 := compileListFrom plugins cs 0 cs
        spliceRules (defaultSelectorVariants sel) cs2
          (.cons (.rule sel cs2) .nil)
      | .raw t c => .cons (.raw t c) .nil

/-- Walk a sibling list, presenting each node with its index and the full
sibling list `sibs` as traversal context; rule children are compiled by the
host's own traversal, restarting indices at 0 with the children as the
sibling context. -/
def compileListFrom (plugins : List StylisPlugin) :
    NodeList → Nat → NodeList → NodeList
  | .nil, _, _ => .nil
  | .cons n ns, i, sibs =>
    (compileNode plugins n i sibs).append (compileListFrom plugins ns (i + 1) sibs)

end

/-- Process one whole stylesheet through the serialization pipeline with the
given plugins registered. -/
def processWithPlugins (plugins : List StylisPlugin) (s : NodeList) : NodeList :=
  compileListFrom plugins s 0 s

/-- The host's default (non-patched) engine instance: no custom plugin
registered, default auto-prefixing heuristics apply. -/
def processDefault (s : NodeList) : NodeList :=
  processWithPlugins [] s

/-- The patched engine instance: `euiStylisPrefixer` registered as a
stylis plugin. -/
def processPatched (s : NodeList) : NodeList :=
  processWithPlugins [euiStylisPrefixer] s

/-! ## Output scanners

Bool-valued scanners over serialized output, used to state the claims
("the output contains …"). -/

mutual

/-- Does this node (or any node below it) carry a `-webkit-`/`-moz-`
vendor-prefixed declaration property? -/
def hasPrefixedDeclN : StyleSheetNode → Bool
  | .decl p _ => strStartsWith "-webkit-" p || strStartsWith "-moz-" p
  | .rule _ cs => hasPrefixedDeclL cs
  | .raw _ _ => false

/-- Does any node in the sequence carry a vendor-prefixed declaration? -/
def hasPrefixedDeclL : NodeList → Bool
  | .nil => false
  | .cons n ns => hasPrefixedDeclN n || hasPrefixedDeclL ns

end

mutual

/-- Does this node (or any node below it) contain a rule whose selector is
exactly `target`? -/
def hasSelectorN (target : String) : StyleSheetNode → Bool
  | .decl _ _ => false
  | .rule sel cs => sel == target || hasSelectorL target cs
  | .raw _ _ => false

/-- Does any node in the sequence contain a rule with selector `target`? -/
def hasSelectorL (target : String) : NodeList → Bool
  | .nil => false
  | .cons n ns => hasSelectorN target n || hasSelectorL target ns

end

mutual

/-- Does this node (or any node below it) contain an `@-webkit-keyframes`
block? -/
def hasWebkitKeyframesN : StyleSheetNode → Bool
  | .decl _ _ => false
  | .rule sel cs => strStartsWith "@-webkit-keyframes" sel || hasWebkitKeyframesL cs
  | .raw _ _ => false

/-- Does any node in the sequence contain an `@-webkit-keyframes` block? -/
def hasWebkitKeyframesL : NodeList → Bool
  | .nil => false
  | .cons n ns => hasWebkitKeyframesN n || hasWebkitKeyframesL ns

end

mutual

/-- Does this node (or any node below it) contain the declaration
`p: v`? -/
def containsDeclN (p v : String) : StyleSheetNode → Bool
  | .decl q w => p == q && v == w
  | .rule _ cs => containsDeclL p v cs
  | .raw _ _ => false

/-- Does any node in the sequence contain the declaration `p: v`? -/
def containsDeclL (p v : String) : NodeList → Bool
  | .nil => false
  | .cons n ns => containsDeclN p v n || containsDeclL p v ns

end

mutual

/-- A node outside the suppress table: a declaration whose property is not in
the animation family, a rule whose selector is neither a suppressed pseudo
selector nor an `@keyframes` at-rule (recursively, with untouched children),
or an unknown `raw` node. -/
def untouchedN : StyleSheetNode → Bool
  | .decl p _ => !(animationProperties.contains p)
  | .rule sel cs =>
    !(suppressedSelectors.contains sel) && !(isKeyframesSelector sel) &&
      untouchedL cs
  | .raw _ _ => true

/-- Is every node of the sequence outside the suppress table? -/
def untouchedL : NodeList → Bool
  | .nil => true
  | .cons n ns => untouchedN n && untouchedL ns

end

/-! ## Behavior of the patched engine

The central fact: with `euiStylisPrefixer` registered, the table rows that
would make the default engine emit vendor-prefixed siblings are exactly the
rows the plugin suppresses, so the patched pipeline reproduces its input
node-for-node. -/

theorem runPlugins_patched (n : StyleSheetNode) (i : Nat) (sibs : NodeList) :
    runPlugins [euiStylisPrefixer] n i sibs = classify n := by
  cases h : classify n <;>
    simp [runPlugins, euiStylisPrefixer, h]

theorem mozSelectorVariants_eq_nil (sel : String)
    (h : sel ∉ suppressedSelectors) :
    mozSelectorVariants sel = [] := by
  unfold mozSelectorVariants
  split
  · simp [suppressedSelectors] at h
  · simp [suppressedSelectors] at h
  · simp [suppressedSelectors] at h
  · rfl

mutual

theorem compileNode_patched_id (n : StyleSheetNode) (i : Nat)
    (sibs : NodeList) :
    compileNode [euiStylisPrefixer] n i sibs = .cons n .nil := by
  cases n with
  | decl p v =>
    by_cases hp : p ∈ animationProperties
    · simp [compileNode, runPlugins_patched, classify, hp]
    · simp [compileNode, runPlugins_patched, classify, hp,
        defaultDeclVariants, NodeList.append]
  | rule sel cs =>
    by_cases hsel : sel ∈ suppressedSelectors
    · simp [compileNode, runPlugins_patched, classify, hsel,
        compileListFrom_patched_id]
    · by_cases hkf : isKeyframesSelector sel = true
      · simp [compileNode, runPlugins_patched, classify, hsel, hkf,
          compileListFrom_patched_id]
      · simp [compileNode, runPlugins_patched, classify, hsel, hkf,
          defaultSelectorVariants, mozSelectorVariants_eq_nil sel hsel,
          spliceRules, compileListFrom_patched_id]
  | raw t c =>
    simp [compileNode, runPlugins_patched, classify]

theorem compileListFrom_patched_id (ns : NodeList) (i : Nat)
    (sibs : NodeList) :
    compileListFrom [euiStylisPrefixer] ns i sibs = ns := by
  cases ns with
  | nil => simp [compileListFrom]
  | cons n ns =>
    simp [compileListFrom, compileNode_patched_id n,
      compileListFrom_patched_id ns, NodeList.append]

end

/-- The patched pipeline reproduces its input stylesheet unchanged: every
vendor variant the default heuristics would splice in is suppressed. -/
theorem processPatched_id (s : NodeList) : processPatched s = s :=
  compileListFrom_patched_id s 0 s

/-! ## The internal Emotion instance (`src/services/emotion/css.ts`) -/

/-- The options record passed to `createEmotion`
(`@emotion/css/create-instance`): cache key, registered stylis plugins, and
the `speedy` flag. -/
structure EmotionOptions where
  key : String
  stylisPlugins : List StylisPlugin
  speedy : Bool

/-- From `src/services/emotion/css.ts`: the options of the custom instance
the internal `css` / `cx` / `cache` / `merge` exports are created from —
`createEmotion({ key: 'css', stylisPlugins: [euiStylisPrefixer],
speedy: false })`. -/
def euiEmotionOptions : EmotionOptions :=
  { key := "css", stylisPlugins := [euiStylisPrefixer], speedy := false }

/-- Modelled from the spec: `createEmotion` itself is the external host
styling engine (spec §6 treats it as a black box that runs the registered
plugins over each node during serialization).  Compiling a stylesheet
through an instance processes it with that instance's plugin list. -/
def emotionCompile (opts : EmotionOptions) (s : NodeList) : NodeList :=
  processWithPlugins opts.stylisPlugins s

/-! ## `EuiBadge` (`src/components/badge/badge.tsx`) -/

/-- JS truthiness of an optional string prop: `undefined` and the empty
string are falsy. -/
def jsStrTruthy : Option String → Bool
  | none => false
  | some s => !(s == "")

/-- The `EuiBadge` props that participate in the href-validation logic:
the `isDisabled` prop (named `_isDisabled` inside the component) and the
optional `href`. -/
structure EuiBadgeProps where
  isDisabledProp : Bool
  href : Option String

/-- `const isHrefValid = !href || validateHref(href)` (badge.tsx line 130):
a missing or empty (falsy) href is vacuously valid, otherwise the
`validateHref` security check decides.  `validateHref` itself
(`services/security/href_validator`) is kept abstract as a parameter. -/
def euiBadgeIsHrefValid (validateHref : String → Bool) :
    Option String → Bool
  | none => true
  | some h => if h == "" then true else validateHref h

/-- `const isDisabled = _isDisabled || !isHrefValid` (badge.tsx line 131). -/
def euiBadgeIsDisabled (validateHref : String → Bool)
    (props : EuiBadgeProps) : Bool :=
  props.isDisabledProp || !(euiBadgeIsHrefValid validateHref props.href)

/-- The element the badge renders as. -/
inductive BadgeElement where
  | a
  | button
deriving DecidableEq

/-- `const Element = href && !isDisabled ? 'a' : 'button'`
(badge.tsx line 179). -/
def euiBadgeElement (validateHref : String → Bool)
    (props : EuiBadgeProps) : BadgeElement :=
  if jsStrTruthy props.href && !(euiBadgeIsDisabled validateHref props) then
    .a
  else
    .button

/-! ## `EuiBetaBadge` (`src/components/badge/beta_badge/beta_badge.tsx`) -/

/-- A `label` React node: either a string or some non-string node. -/
inductive BadgeLabel where
  | str (s : String)
  | node
deriving DecidableEq

/-- JS `String.prototype.length` counts UTF-16 code units. -/
def utf16Length (s : String) : Nat :=
  s.data.foldl (fun n c => n + (if c.toNat < 65536 then 1 else 2)) 0

/-- `const singleLetter = !!(typeof label === 'string' &&
label.length === 1)` (beta_badge.tsx line 285). -/
def singleLetter : BadgeLabel → Bool
  | .str s => utf16Length s == 1
  | .node => false

/-- The TS `IconType` is `ComponentType | keyof typeof iconTypes | string`:
either a named (string) icon or a component. -/
inductive IconType where
  | named (s : String)
  | component
deriving DecidableEq

/-- JS truthiness of the optional `iconType` prop: `undefined` and the empty
string are falsy, a component or non-empty icon name is truthy. -/
def iconTypeTruthy : Option IconType → Bool
  | none => false
  | some (.named s) => !(s == "")
  | some .component => true

/-- `const isCircular = iconType || singleLetter` (beta_badge.tsx
line 286), as the truthiness test it is used for. -/
def isCircular (iconType : Option IconType) (label : BadgeLabel) : Bool :=
  iconTypeTruthy iconType || singleLetter label

/-- The badge sizes (`SIZES = ['s', 'm']`). -/
inductive BetaBadgeSize where
  | s
  | m
deriving DecidableEq

/-- The sizing style group the component picks from
`styles.badgeSizes`. -/
inductive BadgeSizeStyle where
  | circle (sz : BetaBadgeSize)
  | default (sz : BetaBadgeSize)
deriving DecidableEq

/-- `isCircular ? styles.badgeSizes.circle[size] :
styles.badgeSizes.default[size]` (beta_badge.tsx lines 296-298). -/
def betaBadgeSizeStyle (iconType : Option IconType) (label : BadgeLabel)
    (size : BetaBadgeSize) : BadgeSizeStyle :=
  if isCircular iconType label then .circle size else .default size

/-! ## Claims -/

/-- The negative-control input of the spec's concrete scenario (§8):
`animation: something;` plus a `::placeholder { color: red }` rule. -/
def negativeControlSheet : NodeList :=
  .cons (.decl "animation" "something")
    (.cons (.rule "::placeholder" (.cons (.decl "color" "red") .nil)) .nil)

/-- The unprefixed `@keyframes` block of the prefixer test's animation
scenario. -/
def keyframesSheet : NodeList :=
  .cons (.rule "@keyframes testAnim"
    (.cons (.rule "from" (.cons (.decl "opacity" "0") .nil))
      (.cons (.rule "to" (.cons (.decl "opacity" "1") .nil)) .nil))) .nil

/-- C1: for every declaration in the animation property family processed
through the patched engine with `euiStylisPrefixer` registered, the
serialized output is exactly the unprefixed declaration — it contains no
`-webkit-`/`-moz-` prefixed duplicate declaration — and when the input
declares only an unprefixed `@keyframes` block (no `@-webkit-keyframes`
anywhere in the input), the output contains no `@-webkit-keyframes`
block. -/
theorem patched_engine_no_animation_or_keyframes_prefixes :
    (∀ p, p ∈ animationProperties → ∀ v,
      processPatched (.cons (.decl p v) .nil) = .cons (.decl p v) .nil ∧
      hasPrefixedDeclL (processPatched (.cons (.decl p v) .nil)) = false) ∧
    (∀ s : NodeList, hasWebkitKeyframesL s = false →
      hasWebkitKeyframesL (processPatched s) = false) := by
  constructor
  · intro p hp v
    refine ⟨processPatched_id _, ?_⟩
    rw [processPatched_id]
    fin_cases hp <;> simp [hasPrefixedDeclL, hasPrefixedDeclN] <;> decide
  · intro s hs
    rw [processPatched_id]
    exact hs

/-- Witness for C1 at the test scenario's concrete inputs:
`animation: testAnim` and the unprefixed `@keyframes testAnim` block. -/
theorem patched_engine_no_animation_or_keyframes_prefixes_w :
    processPatched (.cons (.decl "animation" "testAnim") .nil) =
      .cons (.decl "animation" "testAnim") .nil ∧
    hasWebkitKeyframesL (processPatched keyframesSheet) = false :=
  ⟨(patched_engine_no_animation_or_keyframes_prefixes.1 "animation"
      (by decide) "testAnim").1,
   patched_engine_no_animation_or_keyframes_prefixes.2 keyframesSheet
      (by decide)⟩

/-- C2: for each of the selectors `::placeholder`, `:read-only` and
`:read-write` processed through the patched engine with `euiStylisPrefixer`
registered, the corresponding `-moz-` prefixed selector variant
(`::-moz-placeholder`, `:-moz-read-only`, `:-moz-read-write`) is absent
from the serialized output (provided, of course, that the input rule did
not itself contain that variant). -/
theorem patched_engine_no_moz_selector_variants :
    ∀ sel, sel ∈ suppressedSelectors → ∀ m, m ∈ mozSelectorVariants sel →
    ∀ cs : NodeList,
      hasSelectorL m (.cons (.rule sel cs) .nil) = false →
      hasSelectorL m (processPatched (.cons (.rule sel cs) .nil)) = false := by
  intro sel _ m _ cs h
  rw [processPatched_id]
  exact h

/-- Witness for C2 at the test scenario's concrete input:
`::placeholder { color: red }` yields no `::-moz-placeholder` rule. -/
theorem patched_engine_no_moz_selector_variants_w :
    hasSelectorL "::-moz-placeholder"
      (processPatched (.cons (.rule "::placeholder"
        (.cons (.decl "color" "red") .nil)) .nil)) = false :=
  patched_engine_no_moz_selector_variants "::placeholder" (by decide)
    "::-moz-placeholder" (by decide)
    (.cons (.decl "color" "red") .nil) (by decide)

/-- C3: the default (non-patched) engine instance, processing an input with
`animation: something;` and a `::placeholder { color: red }` rule, emits
both `-webkit-animation: something;` and `::-moz-placeholder { … }` —
while the patched instance emits neither, i.e. the suppression is opt-in
via explicit plugin registration, not a global default. -/
theorem default_engine_emits_vendor_prefixes :
    containsDeclL "-webkit-animation" "something"
      (processDefault negativeControlSheet) = true ∧
    hasSelectorL "::-moz-placeholder"
      (processDefault negativeControlSheet) = true ∧
    containsDeclL "-webkit-animation" "something"
      (processPatched negativeControlSheet) = false ∧
    hasSelectorL "::-moz-placeholder"
      (processPatched negativeControlSheet) = false := by
  refine ⟨by decide, by decide, by decide, by decide⟩

/-- C4: the prefix decision is deterministic and side-effect-free — the
plugin's resulting action is a pure function of the node content against
the static rule table, identical across invocations whatever traversal
context (sibling index, sibling list) each invocation supplies. -/
theorem euiStylisPrefixer_deterministic :
    ∀ (n : StyleSheetNode) (i j : Nat) (sibs1 sibs2 : NodeList),
      euiStylisPrefixer n i sibs1 = euiStylisPrefixer n j sibs2 ∧
      euiStylisPrefixer n i sibs1 = classify n :=
  fun _ _ _ _ _ => ⟨rfl, rfl⟩

/-- C5: the transform is idempotent — applying the patched pipeline to its
own output produces no further changes; already-transformed output is a
fixed point. -/
theorem patched_engine_idempotent (s : NodeList) :
    processPatched (processPatched s) = processPatched s := by
  simp [processPatched_id]

/-- C6: the transform never throws — it is a total function, and for every
input node (unknown/malformed `raw` shapes included) it either suppresses
prefixing or falls through to `LeaveDefault`; no other outcome exists. -/
theorem euiStylisPrefixer_fail_open (n : StyleSheetNode) (i : Nat)
    (sibs : NodeList) :
    euiStylisPrefixer n i sibs = .Suppress ∨
    euiStylisPrefixer n i sibs = .LeaveDefault := by
  cases n with
  | decl p v =>
    simp only [euiStylisPrefixer, classify]
    split
    · exact Or.inl rfl
    · exact Or.inr rfl
  | rule sel cs =>
    simp only [euiStylisPrefixer, classify]
    split
    · exact Or.inl rfl
    · exact Or.inr rfl
  | raw t c => exact Or.inr rfl

/-- C7: every declaration or selector outside the suppress table is
classified `LeaveDefault`, and a stylesheet of untouched nodes passes
through the patched pipeline unchanged — contents and sibling order
preserved. -/
theorem untouched_nodes_pass_through :
    (∀ p v, p ∉ animationProperties →
      classify (.decl p v) = .LeaveDefault) ∧
    (∀ sel cs, sel ∉ suppressedSelectors → isKeyframesSelector sel = false →
      classify (.rule sel cs) = .LeaveDefault) ∧
    (∀ s : NodeList, untouchedL s = true → processPatched s = s) := by
  refine ⟨?_, ?_, ?_⟩
  · intro p v hp
    simp [classify, hp]
  · intro sel cs h1 h2
    simp [classify, h1, h2]
  · intro s _
    exact processPatched_id s

/-- Witness for C7 at concrete untouched inputs: a `color` declaration and
a class-selector rule. -/
theorem untouched_nodes_pass_through_w :
    classify (.decl "color" "red") = .LeaveDefault ∧
    classify (.rule ".euiBadge" .nil) = .LeaveDefault ∧
    processPatched (.cons (.decl "color" "red") .nil) =
      .cons (.decl "color" "red") .nil :=
  ⟨untouched_nodes_pass_through.1 "color" "red" (by decide),
   untouched_nodes_pass_through.2.1 ".euiBadge" .nil (by decide) (by decide),
   untouched_nodes_pass_through.2.2 (.cons (.decl "color" "red") .nil)
     (by decide)⟩

/-- C8: the library's internal Emotion instance is constructed with key
`'css'`, `euiStylisPrefixer` as its only stylis plugin and `speedy`
disabled, so every stylesheet compiled through it goes through the patched
pipeline — in particular every animation-family declaration is suppressed
with no per-consumer opt-in. -/
theorem eui_emotion_instance_configuration :
    euiEmotionOptions.key = "css" ∧
    euiEmotionOptions.speedy = false ∧
    euiEmotionOptions.stylisPlugins = [euiStylisPrefixer] ∧
    (∀ s : NodeList, emotionCompile euiEmotionOptions s = processPatched s) ∧
    (∀ p, p ∈ animationProperties → ∀ v i sibs,
      runPlugins euiEmotionOptions.stylisPlugins (.decl p v) i sibs =
        .Suppress) := by
  refine ⟨rfl, rfl, rfl, fun _ => rfl, ?_⟩
  intro p hp v i sibs
  have h : euiEmotionOptions.stylisPlugins = [euiStylisPrefixer] := rfl
  rw [h, runPlugins_patched]
  simp [classify, hp]

/-- Witness for C8 at a concrete animation-family declaration. -/
theorem eui_emotion_instance_configuration_w :
    runPlugins euiEmotionOptions.stylisPlugins
      (.decl "animation-delay" "1s") 0 .nil = .Suppress :=
  eui_emotion_instance_configuration.2.2.2.2 "animation-delay" (by decide)
    "1s" 0 .nil

/-- C9: an `EuiBadge` whose `href` fails href validation behaves as
disabled — `isDisabled` is forced true regardless of the `isDisabled`
prop — and renders a `<button>` element rather than an `<a>`, so an
invalid or unsafe href is never emitted as a link. -/
theorem euiBadge_invalid_href_renders_disabled_button
    (validateHref : String → Bool) (props : EuiBadgeProps)
    (h : euiBadgeIsHrefValid validateHref props.href = false) :
    euiBadgeIsDisabled validateHref props = true ∧
    euiBadgeElement validateHref props = .button := by
  have hd : euiBadgeIsDisabled validateHref props = true := by
    simp [euiBadgeIsDisabled, h]
  refine ⟨hd, ?_⟩
  simp [euiBadgeElement, hd]

/-- Witness for C9: a badge with `isDisabled={false}` and an unsafe href
rejected by the validator is disabled and renders a button. -/
theorem euiBadge_invalid_href_renders_disabled_button_w :
    euiBadgeIsDisabled (fun _ => false) ⟨false, some "javascript:alert(1)"⟩ = true ∧
    euiBadgeElement (fun _ => false) ⟨false, some "javascript:alert(1)"⟩ =
      BadgeElement.button :=
  euiBadge_invalid_href_renders_disabled_button (fun _ => false)
    ⟨false, some "javascript:alert(1)"⟩ (by decide)

/-- C10 (counterexample): the claim "circular sizing is selected exactly
when an `iconType` is supplied or the label is a single-character string"
is false as stated: `iconType=""` is a supplied icon type, yet the
component's JS truthiness test makes `isCircular` false, so the default
(non-circular) sizing is selected. -/
theorem betaBadge_iconType_supplied_not_circular :
    ¬ (∀ (iconType : Option IconType) (label : BadgeLabel)
        (size : BetaBadgeSize),
        betaBadgeSizeStyle iconType label size = .circle size ↔
          (iconType.isSome = true ∨ singleLetter label = true)) := by
  intro h
  have h2 := (h (some (.named "")) (.str "ab") .m).mpr (Or.inl rfl)
  exact absurd h2 (by decide)

/-- C10 (amended): `EuiBetaBadge` selects circular badge sizing exactly
when a truthy `iconType` is supplied (a component, or a non-empty icon
name) or the label is a string of JS length exactly 1; in every other case
— including an empty-string `iconType` — it selects the default
non-circular sizing. -/
theorem betaBadge_circular_iff_truthy_icon_or_single_letter
    (iconType : Option IconType) (label : BadgeLabel)
    (size : BetaBadgeSize) :
    (betaBadgeSizeStyle iconType label size = .circle size ↔
      (iconTypeTruthy iconType = true ∨ singleLetter label = true)) ∧
    (betaBadgeSizeStyle iconType label size = .default size ↔
      ¬(iconTypeTruthy iconType = true ∨ singleLetter label = true)) := by
  by_cases hc : isCircular iconType label = true
  · have h1 : iconTypeTruthy iconType = true ∨ singleLetter label = true := by
      simpa [isCircular] using hc
    simp [betaBadgeSizeStyle, hc, h1]
  · have h1 : ¬(iconTypeTruthy iconType = true ∨ singleLetter label = true) := by
      simpa [isCircular] using hc
    simp [betaBadgeSizeStyle, hc, h1]
